import Mathlib

/-!
Shallow embedding of the schoolCourses REST API (Express + Sequelize):
the `authenticateUser` basic-auth gate and the user/course route handlers
from `src/routes/user.js` and `src/routes/course.js`, together with the
`User` and `Course` Sequelize models.

Machine-level collaborators that are not part of the repository
(the `bcryptjs` hashing library and the `basic-auth` header parser) are
modelled from the specification, as noted on each definition.
-/

/-! ## Data model (Sequelize `User` and `Course` models) -/

/-- A persisted user record (`models/user.js`): integer primary key plus
`firstName`, `lastName`, `emailAddress` and the stored `password` hash. -/
structure User where
  id : Nat
  firstName : String
  lastName : String
  emailAddress : String
  password : String
deriving Repr, DecidableEq

/-- A persisted course record (`models/course.js`): integer primary key,
`title`, `description`, optional `estimatedTime` / `materialsNeeded`,
and the owning user's id via the `userId` foreign key. -/
structure Course where
  id : Nat
  title : String
  description : String
  estimatedTime : Option String
  materialsNeeded : Option String
  userId : Nat
deriving Repr, DecidableEq

/-- The persistence collaborator's state: the stored users and courses plus
the auto-increment counters for the two integer primary keys. -/
structure Db where
  users : List User
  courses : List Course
  nextUserId : Nat
  nextCourseId : Nat
deriving Repr, DecidableEq

/-- `User.findOne({ where: { emailAddress } })`: first stored user whose
`emailAddress` matches exactly. -/
def findUserByEmail (db : Db) (email : String) : Option User :=
  db.users.find? (fun u => u.emailAddress == email)

/-- `Course.findByPk(id)`: first stored course with the given primary key. -/
def findCourseByPk (db : Db) (id : Nat) : Option Course :=
  db.courses.find? (fun c => c.id == id)

/-! ## SecretVerifier (`bcryptjs`) -/

/-- Modelled from the spec: `bcryptjs.hashSync` is an external library not
under `src/`.  Per spec 4.1 the hash is a randomized-salt one-way transform;
the internal randomness is made explicit as the `salt` argument, encoded in
unary before a separator, followed by the verifiable payload. -/
def hashSync (salt : Nat) (plain : String) : String :=
  String.mk (List.replicate salt '*') ++ "$" ++ plain

/-- Modelled from the spec: `bcryptjs.compareSync` is an external library not
under `src/`.  Per spec 4.1 `verify(plaintext, hashedSecret)` returns a
boolean and never throws on malformed hash input: the salt portion is
stripped and the payload compared. -/
def compareSync (plain hashed : String) : Bool :=
  String.mk (hashed.data.dropWhile (fun c => c != '$')) == "$" ++ plain

/-! ## CredentialExtractor (`basic-auth`) -/

/-- The parsed credential returned by `basic-auth`: `credentials.name` and
`credentials.pass`. -/
structure Credential where
  name : String
  pass : String
deriving Repr, DecidableEq

/-- Splits a character list at the first colon, or reports that no colon
separator is present. -/
def splitAtColon : List Char → Option (List Char × List Char)
  | [] => none
  | c :: rest =>
    if c = ':' then some ([], rest)
    else
      match splitAtColon rest with
      | some (a, b) => some (c :: a, b)
      | none => none

/-- Strips an expected scheme tag from the front of the raw header
characters, or fails when the header does not begin with the tag. -/
def dropScheme : List Char → List Char → Option (List Char)
  | [], cs => some cs
  | _ :: _, [] => none
  | p :: ps, c :: cs => if c = p then dropScheme ps cs else none

/-- Outcome of credential extraction per spec 4.2: the header may be absent,
malformed, or carry a structured credential. -/
inductive CredExtract where
  | absent : CredExtract
  | malformed : CredExtract
  | ok : Credential → CredExtract
deriving Repr, DecidableEq

/-- Modelled from the spec: the `basic-auth` header parser is an external
library not under `src/`.  Per spec 4.2 a well-formed header is a scheme tag
followed by a colon-separated identifier/secret pair in a reversible text
encoding (modelled as the identity encoding). -/
def extractCredential (header : Option String) : CredExtract :=
  match header with
  | none => .absent
  | some raw =>
    match dropScheme "Basic ".data raw.data with
    | none => .malformed
    | some rest =>
      match splitAtColon rest with
      | none => .malformed
      | some (n, p) => .ok ⟨String.mk n, String.mk p⟩

/-- `auth(req)` from the route files: the `basic-auth` call yields a
credential object, or a falsy value for both a missing and a malformed
header. -/
def basicAuthParse (header : Option String) : Option Credential :=
  match extractCredential header with
  | .ok c => some c
  | _ => none

/-- The canonical well-formed credential header for identifier `i` and
secret `s`. -/
def mkBasicHeader (i s : String) : String :=
  "Basic " ++ i ++ ":" ++ s

/-! ## AuthenticationGate (`authenticateUser` in `src/routes/user.js` and
`src/routes/course.js`, lines 19-65, identical in both files) -/

/-- The external 401 body sent on every authentication failure. -/
def authFailedBody : String :=
  "Failed or no authentication, please authenticate first."

/-- Observable outcome of one run of the `authenticateUser` middleware:
any response it wrote (`res.status(...).json(...)`), the internal
`console.warn` message, the `req.currentUser` it attached, how many
`User.findOne` calls it made, and whether it invoked `next()`. -/
structure GateResult where
  status : Option Nat
  body : Option String
  internalLog : Option String
  currentUser : Option User
  findOneCalls : Nat
  calledNext : Bool
deriving Repr, DecidableEq

/-- `authenticateUser` (`src/routes/user.js` lines 19-65): parse the basic
auth header; when credentials exist, look the user up by email and compare
the password with `bcryptjs.compareSync`; on success attach
`req.currentUser` and call `next()`, otherwise log the specific internal
reason and answer 401 with the one generic body. -/
def authenticateUser (db : Db) (header : Option String) : GateResult :=
  match basicAuthParse header with
  | some credentials =>
    match findUserByEmail db credentials.name with
    | some user =>
      if compareSync credentials.pass user.password then
        { status := none, body := none, internalLog := none,
          currentUser := some user, findOneCalls := 1, calledNext := true }
      else
        { status := some 401, body := some authFailedBody,
          internalLog := some ("User " ++ user.emailAddress ++ " is not authenticated."),
          currentUser := none, findOneCalls := 1, calledNext := false }
    | none =>
      { status := some 401, body := some authFailedBody,
        internalLog := some ("User " ++ credentials.name ++ " is not found..."),
        currentUser := none, findOneCalls := 1, calledNext := false }
  | none =>
    { status := some 401, body := some authFailedBody,
      internalLog := some "AUTH Header not found.",
      currentUser := none, findOneCalls := 0, calledNext := false }

/-! ## Fault propagation: the gate over fallible collaborators

`authenticateUser` awaits `User.findOne` and calls `bcryptjs.compareSync`
with no surrounding try/catch, so a fault from either collaborator escapes
the middleware as a rejected promise instead of being written as a
response.  The same control flow is re-expressed here with the two
collaborator ports made explicit and fallible. -/

/-- `authenticateUser` with its two collaborators as explicit fallible
ports: identical branch structure to `authenticateUser`, but a fault from
`findOne` or `compare` aborts the middleware without any response. -/
def authenticateUserE (findOne : String → Except String (Option User))
    (compare : String → String → Except String Bool)
    (header : Option String) : Except String GateResult :=
  match basicAuthParse header with
  | some credentials =>
    match findOne credentials.name with
    | .error e => .error e
    | .ok (some user) =>
      match compare credentials.pass user.password with
      | .error e => .error e
      | .ok authenticated =>
        if authenticated then
          .ok { status := none, body := none, internalLog := none,
                currentUser := some user, findOneCalls := 1, calledNext := true }
        else
          .ok { status := some 401, body := some authFailedBody,
                internalLog := some ("User " ++ user.emailAddress ++ " is not authenticated."),
                currentUser := none, findOneCalls := 1, calledNext := false }
    | .ok none =>
      .ok { status := some 401, body := some authFailedBody,
            internalLog := some ("User " ++ credentials.name ++ " is not found..."),
            currentUser := none, findOneCalls := 1, calledNext := false }
  | none =>
    .ok { status := some 401, body := some authFailedBody,
          internalLog := some "AUTH Header not found.",
          currentUser := none, findOneCalls := 0, calledNext := false }

/-! ## HTTP responses and route handlers -/

/-- The JSON payload a handler may attach to its response. -/
inductive RespBody where
  | msg : String → RespBody
  | errs : List String → RespBody
  | user : Nat → String → String → String → RespBody
  | courses : List (Course × Option (Nat × String × String × String)) → RespBody
  | course : Course × Option (Nat × String × String × String) → RespBody
deriving Repr, DecidableEq

/-- An HTTP response as the handlers build it: status code, optional
`Location` header, optional JSON body. -/
structure Response where
  status : Nat
  location : Option String := none
  jsonBody : Option RespBody := none
deriving Repr, DecidableEq

/-- The four public attributes selected for an included user
(`attributes: ['id', 'firstName', 'lastName', 'emailAddress']`). -/
def userView (u : User) : Nat × String × String × String :=
  (u.id, u.firstName, u.lastName, u.emailAddress)

/-- The owner record a course response includes: the associated user found
through the `belongsTo` association, restricted to the four public
attributes. -/
def courseView (db : Db) (c : Course) : Course × Option (Nat × String × String × String) :=
  (c, (db.users.find? (fun u => u.id == c.userId)).map userView)

/-- `asyncHandler` (`src/routes/user.js` lines 69-78): run the wrapped
handler and turn any escaped fault into a 500 response carrying the error. -/
def asyncHandler (r : Except String Response) : Response :=
  match r with
  | .ok resp => resp
  | .error e => { status := 500, jsonBody := some (.msg e) }

/-! ### User routes (`src/routes/user.js`) -/

/-- `GET /api/users` handler body (lines 88-99): answer 200 with the
authenticated user's id, firstName, lastName and emailAddress. -/
def getUsers (currentUser : User) : Response :=
  { status := 200,
    jsonBody := some (.user currentUser.id currentUser.firstName
      currentUser.lastName currentUser.emailAddress) }

/-- Request body of `POST /api/users`; a `none` field is one the request
did not supply (or supplied as null). -/
structure UserBody where
  firstName : Option String
  lastName : Option String
  emailAddress : Option String
  password : Option String
deriving Repr, DecidableEq

/-- Modelled from the spec: `express-validator` is an external library not
under `src/`; its `isEmail` format check is abstracted as the presence of
an at-sign. -/
def isEmailLike (s : String) : Bool :=
  s.data.contains '@'

/-- An `exists({ checkNull: true, checkFalsy: true })` check: the field must
be present and not falsy (the empty string is falsy). -/
def presentNonFalsy (v : Option String) : Bool :=
  match v with
  | some s => !(s == "")
  | none => false

/-- The validation chain of `POST /api/users` (lines 108-122): required
firstName, lastName, emailAddress (also a valid email) and password, each
failure contributing its message. -/
def userValidationErrors (b : UserBody) : List String :=
  (if presentNonFalsy b.firstName then [] else ["\"firstName\" needs a value!"])
  ++ (if presentNonFalsy b.lastName then [] else ["\"lastName\" needs a value!"])
  ++ (if presentNonFalsy b.emailAddress then [] else ["\"emailAddress\" needs a value!"])
  ++ (if isEmailLike (b.emailAddress.getD "") then [] else ["\"emailAddress\" must be a VALID value!"])
  ++ (if presentNonFalsy b.password then [] else ["\"password\" needs a value!"])

/-- `User.create(user)`: assign the next primary key and append; the email
uniqueness constraint the route handles (`SequelizeUniqueConstraintError`)
rejects a duplicate `emailAddress`. -/
def createUser (db : Db) (firstName lastName emailAddress password : String) :
    Except String Db :=
  if (findUserByEmail db emailAddress).isSome then
    .error "SequelizeUniqueConstraintError"
  else
    .ok { db with
          users := db.users ++
            [{ id := db.nextUserId, firstName := firstName, lastName := lastName,
               emailAddress := emailAddress, password := password }],
          nextUserId := db.nextUserId + 1 }

/-- `POST /api/users` handler body (lines 123-159): on validation failure
400 with the messages; otherwise hash the password with
`bcryptjs.hashSync`, create the user, and answer 201 with `Location: /`
and no body; a uniqueness violation maps to 422. -/
def postUsers (db : Db) (salt : Nat) (b : UserBody) : Response × Db :=
  if !(userValidationErrors b).isEmpty then
    ({ status := 400, jsonBody := some (.errs (userValidationErrors b)) }, db)
  else
    let hashed := hashSync salt (b.password.getD "")
    match createUser db (b.firstName.getD "") (b.lastName.getD "")
        (b.emailAddress.getD "") hashed with
    | .ok db2 => ({ status := 201, location := some "/" }, db2)
    | .error _ =>
      ({ status := 422, jsonBody := some (.msg "Hmm, this email is already taken!") }, db)

/-! ### Course routes (`src/routes/course.js`) -/

/-- `GET /api/courses` handler body (lines 88-99): 200 with every course and
its owner's four public attributes. -/
def getCourses (db : Db) : Response :=
  { status := 200, jsonBody := some (.courses (db.courses.map (courseView db))) }

/-- `GET /api/courses/:id` handler body (lines 107-125): 200 with the course
and its owner when found, otherwise 404. -/
def getCourse (db : Db) (id : Nat) : Response :=
  match findCourseByPk db id with
  | some c => { status := 200, jsonBody := some (.course (courseView db c)) }
  | none => { status := 404, jsonBody := some (.msg "Oops! The course could not be located.") }

/-- Request body of `POST` / `PUT` course routes; a `none` field is one the
request did not supply (or supplied as null). -/
structure CourseBody where
  title : Option String
  description : Option String
  estimatedTime : Option String
  materialsNeeded : Option String
  userId : Option Nat
deriving Repr, DecidableEq

/-- An `exists({ checkNull: true })` check without `checkFalsy`: the field
must be present and non-null, but the empty string passes. -/
def presentNotNull (v : Option String) : Bool :=
  v.isSome

/-- The validation chain of `POST /api/courses` (lines 134-140): `title`
present, `description` present and not falsy. -/
def postCourseValidationErrors (b : CourseBody) : List String :=
  (if presentNotNull b.title then [] else ["\"title\" needs a value!"])
  ++ (if presentNonFalsy b.description then [] else ["\"description\" needs a value"])

/-- The validation chain of `PUT /api/courses/:id` (lines 169-175): same
checks as the POST route, with a slightly different description message. -/
def putCourseValidationErrors (b : CourseBody) : List String :=
  (if presentNotNull b.title then [] else ["\"title\" needs a value!"])
  ++ (if presentNonFalsy b.description then [] else ["\"description\" needs a value!"])

/-- `Course.create(req.body)`: assign the next primary key and append.  The
model requires `title`, `description` and the `userId` foreign key to be
non-null (`allowNull: false`), so a body missing one of them makes the
create throw. -/
def createCourse (db : Db) (b : CourseBody) : Except String (Nat × Db) :=
  match b.title, b.description, b.userId with
  | some t, some d, some uid =>
    let id := db.nextCourseId
    .ok (id, { db with
               courses := db.courses ++
                 [{ id := id, title := t, description := d,
                    estimatedTime := b.estimatedTime,
                    materialsNeeded := b.materialsNeeded, userId := uid }],
               nextCourseId := id + 1 })
  | _, _, _ => .error "SequelizeValidationError"

/-- `POST /api/courses` handler body (lines 141-162): 400 on validation
failure, otherwise `Course.create(req.body)` as given — the handler never
reads `req.currentUser` — then 201 with `Location: /courses/:id`; a create
fault is rethrown. -/
def postCourses (db : Db) (_currentUser : User) (b : CourseBody) :
    Except String (Response × Db) :=
  if !(postCourseValidationErrors b).isEmpty then
    .ok ({ status := 400, jsonBody := some (.errs (postCourseValidationErrors b)) }, db)
  else
    match createCourse db b with
    | .ok (id, db2) =>
      .ok ({ status := 201, location := some ("/courses/" ++ toString id) }, db2)
    | .error e => .error e

/-- `course.update(req.body)`: overwrite each attribute the body supplies on
the course with the given primary key, keeping the others. -/
def updateCourse (db : Db) (id : Nat) (b : CourseBody) : Db :=
  { db with
    courses := db.courses.map (fun c =>
      if c.id == id then
        { c with
          title := b.title.getD c.title,
          description := b.description.getD c.description,
          estimatedTime := match b.estimatedTime with
            | some v => some v
            | none => c.estimatedTime,
          materialsNeeded := match b.materialsNeeded with
            | some v => some v
            | none => c.materialsNeeded,
          userId := b.userId.getD c.userId }
      else c) }

/-- `PUT /api/courses/:id` handler body (lines 176-210): 400 on validation
failure; otherwise look the course up, answer 404 when absent, 403 when the
authenticated user is not its owner, and apply the update with 204 when the
owner matches. -/
def putCourse (db : Db) (currentUser : User) (id : Nat) (b : CourseBody) :
    Response × Db :=
  if !(putCourseValidationErrors b).isEmpty then
    ({ status := 400, jsonBody := some (.errs (putCourseValidationErrors b)) }, db)
  else
    match findCourseByPk db id with
    | some course =>
      if course.userId == currentUser.id then
        ({ status := 204 }, updateCourse db id b)
      else
        ({ status := 403,
           jsonBody := some (.msg "Please make sure you are trying to edit your own course.") }, db)
    | none =>
      ({ status := 404,
         jsonBody := some (.msg "Please double check that this course exists in the database.") }, db)

/-- `DELETE /api/courses/:id` handler body (lines 217-239): look the course
up, answer 404 when absent, 403 when the authenticated user is not its
owner, and destroy it with 204 when the owner matches. -/
def deleteCourse (db : Db) (currentUser : User) (id : Nat) : Response × Db :=
  match findCourseByPk db id with
  | some course =>
    if course.userId == currentUser.id then
      ({ status := 204 },
       { db with courses := db.courses.eraseP (fun c => c.id == id) })
    else
      ({ status := 403,
         jsonBody := some (.msg "Please make sure you are trying to modify your own course.") }, db)
  | none =>
    ({ status := 404,
       jsonBody := some (.msg "Please double check that this course exists in the database.") }, db)

/-! ## Helper lemmas -/

theorem dropWhile_dollar_replicate (n : Nat) (l : List Char) :
    List.dropWhile (fun c => c != '$') (List.replicate n '*' ++ l)
      = List.dropWhile (fun c => c != '$') l := by
  induction n with
  | zero => rfl
  | succ k ih =>
    rw [List.replicate_succ, List.cons_append, List.dropWhile_cons]
    simp only [show (('*' : Char) != '$') = true from rfl, if_true]
    exact ih

theorem hashSync_data (salt : Nat) (p : String) :
    (hashSync salt p).data = List.replicate salt '*' ++ '$' :: p.data := by
  show (String.mk (List.replicate salt '*') ++ "$" ++ p).data = _
  rw [String.data_append, String.data_append]
  rw [show "$".data = ['$'] from rfl]
  simp [List.append_assoc]

theorem dollar_append_data (p : String) : ("$" ++ p).data = '$' :: p.data := by
  rw [String.data_append]
  rfl

theorem compareSync_hashSync (salt : Nat) (p : String) :
    compareSync p (hashSync salt p) = true := by
  unfold compareSync
  rw [hashSync_data, dropWhile_dollar_replicate]
  rw [List.dropWhile_cons]
  simp only [show (('$' : Char) != '$') = false from rfl, Bool.false_eq_true, if_false]
  rw [show String.mk ('$' :: p.data) = "$" ++ p from String.ext (by rw [dollar_append_data])]
  exact beq_self_eq_true _

theorem hashSync_length (salt : Nat) (p : String) :
    (hashSync salt p).data.length = salt + 1 + p.data.length := by
  rw [hashSync_data]
  simp [List.length_append, List.length_replicate]
  omega

/-! ## Claims -/

/-- C7: for every secret `s`, hashing with two distinct salts (the explicit
randomness of the salt-randomized scheme) produces two different encoded
strings, and `compareSync` verifies `s` against each of the two outputs. -/
theorem hash_randomized_still_verifies (s : String) (salt1 salt2 : Nat)
    (hne : salt1 ≠ salt2) :
    hashSync salt1 s ≠ hashSync salt2 s
      ∧ compareSync s (hashSync salt1 s) = true
      ∧ compareSync s (hashSync salt2 s) = true := by
  refine ⟨?_, compareSync_hashSync salt1 s, compareSync_hashSync salt2 s⟩
  intro h
  have hlen := congrArg (fun t => t.data.length) h
  simp only [hashSync_length] at hlen
  omega

/-- Witness for C7 at secret "pw" and salts 1 and 2. -/
theorem hash_randomized_still_verifies_witness :
    hashSync 1 "pw" ≠ hashSync 2 "pw"
      ∧ compareSync "pw" (hashSync 1 "pw") = true
      ∧ compareSync "pw" (hashSync 2 "pw") = true :=
  hash_randomized_still_verifies "pw" 1 2 (by decide)

theorem append_user_ne_generic (x y : String) :
    "User " ++ x ++ y ≠ authFailedBody := by
  intro h
  have h2 : ("User " ++ x ++ y).data.head? = authFailedBody.data.head? := by rw [h]
  rw [String.data_append, String.data_append,
    show "User ".data = 'U' :: "ser ".data from rfl] at h2
  simp only [List.cons_append, List.head?_cons] at h2
  exact absurd h2 (by decide)

/-- C1: whenever the gate rejects (it does not call `next()`: missing or
malformed header, unknown identifier, or wrong secret), the response is 401
with the one generic JSON body, and the internal rejection reason logged on
that path is never that body. -/
theorem auth_failure_uniform_401 (db : Db) (header : Option String)
    (h : (authenticateUser db header).calledNext = false) :
    (authenticateUser db header).status = some 401
      ∧ (authenticateUser db header).body = some authFailedBody
      ∧ ∀ m, (authenticateUser db header).internalLog = some m → m ≠ authFailedBody := by
  cases hc : basicAuthParse header with
  | none =>
    have hres : authenticateUser db header =
        { status := some 401, body := some authFailedBody,
          internalLog := some "AUTH Header not found.",
          currentUser := none, findOneCalls := 0, calledNext := false } := by
      simp only [authenticateUser, hc]
    rw [hres]
    refine ⟨rfl, rfl, fun m hm => ?_⟩
    cases hm
    decide
  | some cred =>
    cases hu : findUserByEmail db cred.name with
    | none =>
      have hres : authenticateUser db header =
          { status := some 401, body := some authFailedBody,
            internalLog := some ("User " ++ cred.name ++ " is not found..."),
            currentUser := none, findOneCalls := 1, calledNext := false } := by
        simp only [authenticateUser, hc, hu]
      rw [hres]
      refine ⟨rfl, rfl, fun m hm => ?_⟩
      cases hm
      exact append_user_ne_generic cred.name " is not found..."
    | some user =>
      cases hcmp : compareSync cred.pass user.password with
      | true =>
        exfalso
        simp only [authenticateUser, hc, hu, hcmp, if_true] at h
        cases h
      | false =>
        have hres : authenticateUser db header =
            { status := some 401, body := some authFailedBody,
              internalLog := some ("User " ++ user.emailAddress ++ " is not authenticated."),
              currentUser := none, findOneCalls := 1, calledNext := false } := by
          simp only [authenticateUser, hc, hu, hcmp]
          rfl
        rw [hres]
        refine ⟨rfl, rfl, fun m hm => ?_⟩
        cases hm
        exact append_user_ne_generic user.emailAddress " is not authenticated."

/-- Witness for C1 on the empty store with no header. -/
theorem auth_failure_uniform_401_witness :
    (authenticateUser ⟨[], [], 1, 1⟩ none).status = some 401
      ∧ (authenticateUser ⟨[], [], 1, 1⟩ none).body = some authFailedBody :=
  ⟨(auth_failure_uniform_401 ⟨[], [], 1, 1⟩ none (by decide)).1,
   (auth_failure_uniform_401 ⟨[], [], 1, 1⟩ none (by decide)).2.1⟩

/-- C5: when the credential header is absent or malformed, the gate rejects
with 401 without making any `User.findOne` call. -/
theorem no_lookup_without_credentials (db : Db) (header : Option String)
    (h : extractCredential header = .absent ∨ extractCredential header = .malformed) :
    (authenticateUser db header).findOneCalls = 0
      ∧ (authenticateUser db header).status = some 401 := by
  have hp : basicAuthParse header = none := by
    unfold basicAuthParse
    rcases h with h | h <;> rw [h]
  have hres : authenticateUser db header =
      { status := some 401, body := some authFailedBody,
        internalLog := some "AUTH Header not found.",
        currentUser := none, findOneCalls := 0, calledNext := false } := by
    simp only [authenticateUser, hp]
  rw [hres]
  exact ⟨rfl, rfl⟩

/-- Witness for C5 on a malformed (non-Basic) header. -/
theorem no_lookup_without_credentials_witness :
    (authenticateUser ⟨[], [], 1, 1⟩ (some "Bearer x")).findOneCalls = 0
      ∧ (authenticateUser ⟨[], [], 1, 1⟩ (some "Bearer x")).status = some 401 :=
  no_lookup_without_credentials ⟨[], [], 1, 1⟩ (some "Bearer x") (Or.inr (by decide))

/-- C6: a fault from the principal-lookup or hashing collaborator is never
mapped to a 401/403 response: `authenticateUserE` propagates it unchanged,
and a propagated fault reaching `asyncHandler` becomes a 500. -/
theorem collaborator_fault_not_masked :
    (∀ (findOne : String → Except String (Option User))
        (compare : String → String → Except String Bool)
        (header : Option String) (c : Credential) (f : String),
        basicAuthParse header = some c →
        findOne c.name = Except.error f →
        authenticateUserE findOne compare header = Except.error f)
      ∧ (∀ (findOne : String → Except String (Option User))
          (compare : String → String → Except String Bool)
          (header : Option String) (c : Credential) (u : User) (f : String),
          basicAuthParse header = some c →
          findOne c.name = Except.ok (some u) →
          compare c.pass u.password = Except.error f →
          authenticateUserE findOne compare header = Except.error f)
      ∧ (∀ f, asyncHandler (Except.error f) = { status := 500, jsonBody := some (.msg f) }) := by
  refine ⟨?_, ?_, fun f => rfl⟩
  · intro findOne compare header c f hp hf
    simp only [authenticateUserE, hp, hf]
  · intro findOne compare header c u f hp hf hcmp
    simp only [authenticateUserE, hp, hf, hcmp]

/-- Witness for C6: a storage fault during lookup propagates out of the
gate. -/
theorem collaborator_fault_not_masked_witness :
    authenticateUserE (fun _ => Except.error "storage unavailable")
        (fun _ _ => Except.ok true) (some (mkBasicHeader "a" "b"))
      = Except.error "storage unavailable" :=
  collaborator_fault_not_masked.1 (fun _ => Except.error "storage unavailable")
    (fun _ _ => Except.ok true) (some (mkBasicHeader "a" "b")) ⟨"a", "b"⟩
    "storage unavailable" (by decide) rfl

theorem dropScheme_append (ps cs : List Char) :
    dropScheme ps (ps ++ cs) = some cs := by
  induction ps with
  | nil => rfl
  | cons p ps ih => simp [dropScheme, ih]

theorem splitAtColon_append (i s : List Char) (h : ':' ∉ i) :
    splitAtColon (i ++ ':' :: s) = some (i, s) := by
  induction i with
  | nil => simp [splitAtColon]
  | cons c cs ih =>
    have hc : ¬ c = ':' := fun hh => h (hh ▸ List.mem_cons_self c cs)
    rw [List.cons_append]
    unfold splitAtColon
    rw [if_neg hc, ih (fun hm => h (List.mem_cons_of_mem c hm))]

theorem extractCredential_mkBasicHeader (i s : String) (h : ':' ∉ i.data) :
    extractCredential (some (mkBasicHeader i s)) = .ok ⟨i, s⟩ := by
  have hdata : (mkBasicHeader i s).data = "Basic ".data ++ (i.data ++ ':' :: s.data) := by
    unfold mkBasicHeader
    rw [String.data_append, String.data_append, String.data_append]
    rw [show ":".data = [':'] from rfl]
    simp [List.append_assoc]
  simp only [extractCredential, hdata, dropScheme_append, splitAtColon_append i.data s.data h]

theorem find_unique {α : Type} (p : α → Bool) (l : List α) (u : α)
    (hmem : u ∈ l) (hp : p u = true) (huniq : ∀ v ∈ l, p v = true → v = u) :
    l.find? p = some u := by
  induction l with
  | nil => cases hmem
  | cons a l ih =>
    by_cases ha : p a = true
    · rw [List.find?_cons_of_pos _ ha]
      exact congrArg some (huniq a (List.mem_cons_self a l) ha)
    · rw [List.find?_cons_of_neg _ (by simpa using ha)]
      have hmem2 : u ∈ l := by
        cases List.mem_cons.mp hmem with
        | inl hh => exact absurd (hh ▸ hp) ha
        | inr hh => exact hh
      exact ih hmem2 (fun v hv hpv => huniq v (List.mem_cons_of_mem a hv) hpv)

/-- C4: a well-formed credential header for identifier `i` and secret `s`,
where the store holds a (unique-identifier) principal with email `i` whose
stored hash verifies `s`, authenticates: the gate attaches that user as
`req.currentUser`, writes no response, and calls `next()`. -/
theorem auth_success_attaches_principal (db : Db) (i s : String) (u : User)
    (hcolon : ':' ∉ i.data) (hmem : u ∈ db.users) (hemail : u.emailAddress = i)
    (huniq : ∀ v ∈ db.users, v.emailAddress = i → v = u)
    (hverify : compareSync s u.password = true) :
    authenticateUser db (some (mkBasicHeader i s)) =
      { status := none, body := none, internalLog := none,
        currentUser := some u, findOneCalls := 1, calledNext := true } := by
  have hparse : basicAuthParse (some (mkBasicHeader i s)) = some ⟨i, s⟩ := by
    unfold basicAuthParse
    rw [extractCredential_mkBasicHeader i s hcolon]
  have hfind : findUserByEmail db i = some u := by
    unfold findUserByEmail
    exact find_unique _ db.users u hmem (by simp [hemail])
      (fun v hv hpv => huniq v hv (by simpa using hpv))
  simp only [authenticateUser, hparse, hfind, hverify, if_true]

/-- Witness for C4: alice authenticates with her own secret. -/
theorem auth_success_attaches_principal_witness :
    authenticateUser
        ⟨[⟨1, "Alice", "Lidd", "alice@x.com", hashSync 3 "pw"⟩], [], 2, 1⟩
        (some (mkBasicHeader "alice@x.com" "pw")) =
      { status := none, body := none, internalLog := none,
        currentUser := some ⟨1, "Alice", "Lidd", "alice@x.com", hashSync 3 "pw"⟩,
        findOneCalls := 1, calledNext := true } :=
  auth_success_attaches_principal
    ⟨[⟨1, "Alice", "Lidd", "alice@x.com", hashSync 3 "pw"⟩], [], 2, 1⟩
    "alice@x.com" "pw" ⟨1, "Alice", "Lidd", "alice@x.com", hashSync 3 "pw"⟩
    (by decide) (by decide) rfl (by decide) (by decide)

/-- C3: for an authenticated principal and an existing target course (the
PUT body passing validation), the ownership decision is Allow exactly when
`course.userId` equals the principal's id — the handler answers 204 — and
Deny otherwise — 403 with the ownership-mismatch message. -/
theorem ownership_decision_put_delete (db : Db) (user : User) (id : Nat)
    (b : CourseBody) (c : Course)
    (hfind : findCourseByPk db id = some c)
    (hval : putCourseValidationErrors b = []) :
    ((putCourse db user id b).1.status = 204 ↔ c.userId = user.id)
      ∧ (c.userId ≠ user.id →
          (putCourse db user id b).1 =
            { status := 403,
              jsonBody := some (.msg "Please make sure you are trying to edit your own course.") })
      ∧ ((deleteCourse db user id).1.status = 204 ↔ c.userId = user.id)
      ∧ (c.userId ≠ user.id →
          (deleteCourse db user id).1 =
            { status := 403,
              jsonBody := some (.msg "Please make sure you are trying to modify your own course.") }) := by
  by_cases hw : c.userId = user.id
  · simp [putCourse, deleteCourse, hval, hfind, hw]
  · have hbeq : (c.userId == user.id) = false := by simp [hw]
    simp [putCourse, deleteCourse, hval, hfind, hbeq, hw]

/-- Witness for C3: a principal with id 2 is denied on a course owned by
user 1. -/
theorem ownership_decision_put_delete_witness :
    (putCourse ⟨[], [⟨1, "t", "d", none, none, 1⟩], 1, 2⟩ ⟨2, "B", "C", "b@x.com", "h"⟩ 1
        ⟨some "t2", some "d2", none, none, none⟩).1 =
      { status := 403,
        jsonBody := some (.msg "Please make sure you are trying to edit your own course.") }
      ∧ (deleteCourse ⟨[], [⟨1, "t", "d", none, none, 1⟩], 1, 2⟩
          ⟨2, "B", "C", "b@x.com", "h"⟩ 1).1 =
        { status := 403,
          jsonBody := some (.msg "Please make sure you are trying to modify your own course.") } :=
  ⟨(ownership_decision_put_delete ⟨[], [⟨1, "t", "d", none, none, 1⟩], 1, 2⟩
      ⟨2, "B", "C", "b@x.com", "h"⟩ 1 ⟨some "t2", some "d2", none, none, none⟩
      ⟨1, "t", "d", none, none, 1⟩ (by decide) (by decide)).2.1 (by decide),
   (ownership_decision_put_delete ⟨[], [⟨1, "t", "d", none, none, 1⟩], 1, 2⟩
      ⟨2, "B", "C", "b@x.com", "h"⟩ 1 ⟨some "t2", some "d2", none, none, none⟩
      ⟨1, "t", "d", none, none, 1⟩ (by decide) (by decide)).2.2.2 (by decide)⟩

/-- C10: an authenticated PUT (with a body passing validation) or DELETE on
a course id with no stored course answers 404 with the not-found message,
and the course store is left unchanged on every such request. -/
theorem missing_course_404_store_unchanged (db : Db) (user : User) (id : Nat)
    (b : CourseBody) (hfind : findCourseByPk db id = none) :
    (putCourseValidationErrors b = [] →
        (putCourse db user id b).1 =
          { status := 404,
            jsonBody := some (.msg "Please double check that this course exists in the database.") })
      ∧ (putCourse db user id b).2 = db
      ∧ (deleteCourse db user id).1 =
          { status := 404,
            jsonBody := some (.msg "Please double check that this course exists in the database.") }
      ∧ (deleteCourse db user id).2 = db := by
  refine ⟨fun hval => by simp [putCourse, hval, hfind], ?_,
    by simp [deleteCourse, hfind], by simp [deleteCourse, hfind]⟩
  by_cases hval : (putCourseValidationErrors b).isEmpty = true
  · simp [putCourse, hval, hfind]
  · simp [putCourse, hval]

/-- Witness for C10 on an empty course store. -/
theorem missing_course_404_store_unchanged_witness :
    (putCourse ⟨[], [], 1, 1⟩ ⟨1, "A", "B", "a@x.com", "h"⟩ 9
        ⟨some "t", some "d", none, none, none⟩).1 =
      { status := 404,
        jsonBody := some (.msg "Please double check that this course exists in the database.") }
      ∧ (deleteCourse ⟨[], [], 1, 1⟩ ⟨1, "A", "B", "a@x.com", "h"⟩ 9).2 = ⟨[], [], 1, 1⟩ :=
  ⟨(missing_course_404_store_unchanged ⟨[], [], 1, 1⟩ ⟨1, "A", "B", "a@x.com", "h"⟩ 9
      ⟨some "t", some "d", none, none, none⟩ (by decide)).1 (by decide),
   (missing_course_404_store_unchanged ⟨[], [], 1, 1⟩ ⟨1, "A", "B", "a@x.com", "h"⟩ 9
      ⟨some "t", some "d", none, none, none⟩ (by decide)).2.2.2⟩

/-- C2 counterexample: `POST /api/courses` runs `Course.create(req.body)`
without consulting `req.currentUser`, so the authenticated principal with
id 1 creates a course whose `userId` is 2: a mutation whose resulting
ownerId differs from the principal's id is applied (and answered 201). -/
theorem create_ignores_principal_counterexample :
    postCourses ⟨[⟨1, "A", "B", "a@x.com", "h"⟩], [], 2, 1⟩
        ⟨1, "A", "B", "a@x.com", "h"⟩ ⟨some "t", some "d", none, none, some 2⟩
      = Except.ok ({ status := 201, location := some "/courses/1" },
          ⟨[⟨1, "A", "B", "a@x.com", "h"⟩], [⟨1, "t", "d", none, none, 2⟩], 2, 2⟩)
      ∧ (⟨1, "A", "B", "a@x.com", "h"⟩ : User).id ≠
          (⟨1, "t", "d", none, none, 2⟩ : Course).userId :=
  ⟨rfl, by decide⟩

/-- C2 amended: for update and delete of an existing course, the mutation
is applied only when the targeted course's `userId` equals the principal's
id; course creation (and an update body supplying `userId`) takes the
ownerId from the request body as given, unchecked against the principal. -/
theorem targeted_mutation_requires_ownership (db : Db) (user : User) (id : Nat)
    (b : CourseBody) :
    ((putCourse db user id b).2 ≠ db →
        ∃ c, findCourseByPk db id = some c ∧ c.userId = user.id)
      ∧ ((deleteCourse db user id).2 ≠ db →
          ∃ c, findCourseByPk db id = some c ∧ c.userId = user.id) := by
  constructor
  · intro hne
    by_cases hval : (putCourseValidationErrors b).isEmpty = true
    · cases hfind : findCourseByPk db id with
      | some c =>
        by_cases hw : c.userId = user.id
        · exact ⟨c, rfl, hw⟩
        · exfalso
          apply hne
          have hbeq : (c.userId == user.id) = false := by simp [hw]
          simp [putCourse, hval, hfind, hbeq]
      | none =>
        exfalso
        apply hne
        simp [putCourse, hval, hfind]
    · exfalso
      apply hne
      simp [putCourse, hval]
  · intro hne
    cases hfind : findCourseByPk db id with
    | some c =>
      by_cases hw : c.userId = user.id
      · exact ⟨c, rfl, hw⟩
      · exfalso
        apply hne
        have hbeq : (c.userId == user.id) = false := by simp [hw]
        simp [deleteCourse, hfind, hbeq]
    | none =>
      exfalso
      apply hne
      simp [deleteCourse, hfind]

/-- Witness for the amended C2: a delete that did change the store was a
delete of the principal's own course. -/
theorem targeted_mutation_requires_ownership_witness :
    ∃ c, findCourseByPk ⟨[], [⟨1, "t", "d", none, none, 5⟩], 1, 2⟩ 1 = some c
      ∧ c.userId = (⟨5, "E", "F", "e@x.com", "h"⟩ : User).id :=
  (targeted_mutation_requires_ownership ⟨[], [⟨1, "t", "d", none, none, 5⟩], 1, 2⟩
      ⟨5, "E", "F", "e@x.com", "h"⟩ 1 ⟨some "t", some "d", none, none, none⟩).2
    (by decide)


theorem hashSync_ne_plain (salt : Nat) (p : String) : hashSync salt p ≠ p := by
  intro h
  have h2 := congrArg (fun t => t.data.length) h
  simp only [hashSync_length] at h2
  omega

/-- C8: a successful POST /api/users (body passing validation, fresh email)
persists the bcrypt hash of the supplied plaintext password, never the
plaintext itself, and answers 201 with Location "/" and no body. -/
theorem post_users_stores_hash (db : Db) (salt : Nat) (b : UserBody) (p : String)
    (hp : b.password = some p)
    (hval : userValidationErrors b = [])
    (hfresh : findUserByEmail db (b.emailAddress.getD "") = none) :
    (postUsers db salt b).1 = { status := 201, location := some "/" }
      ∧ (postUsers db salt b).2.users
          = db.users ++
            [{ id := db.nextUserId, firstName := b.firstName.getD "",
               lastName := b.lastName.getD "", emailAddress := b.emailAddress.getD "",
               password := hashSync salt p }]
      ∧ hashSync salt p ≠ p := by
  refine ⟨?_, ?_, hashSync_ne_plain salt p⟩ <;>
    simp [postUsers, createUser, hval, hfresh, hp]

/-- Witness for C8: a fresh registration on the empty store. -/
theorem post_users_stores_hash_witness :
    (postUsers ⟨[], [], 1, 1⟩ 3 ⟨some "A", some "B", some "a@x.com", some "pw"⟩).1
      = { status := 201, location := some "/" }
      ∧ hashSync 3 "pw" ≠ "pw" :=
  ⟨(post_users_stores_hash ⟨[], [], 1, 1⟩ 3 ⟨some "A", some "B", some "a@x.com", some "pw"⟩
      "pw" rfl (by decide) (by decide)).1,
   (post_users_stores_hash ⟨[], [], 1, 1⟩ 3 ⟨some "A", some "B", some "a@x.com", some "pw"⟩
      "pw" rfl (by decide) (by decide)).2.2⟩

/-- Rewrites every stored user's password hash, leaving every other stored
field and the course store untouched. -/
def scrubUsers (g : User → String) (db : Db) : Db :=
  { db with users := db.users.map (fun u => { u with password := g u }) }

theorem courseView_scrub (g : User → String) (db : Db) (c : Course) :
    courseView (scrubUsers g db) c = courseView db c := by
  unfold courseView scrubUsers
  simp only [List.find?_map, Option.map_map]
  rfl

/-- C9: no successful read-endpoint response exposes the stored password:
GET /api/users returns exactly the four public attributes of the
authenticated user, and the responses of all three read endpoints are
unchanged under any rewrite of every stored password hash. -/
theorem read_responses_password_free (db : Db) (g : User → String) (u : User)
    (p : String) (id : Nat) :
    getUsers { u with password := p } = getUsers u
      ∧ getUsers u =
          { status := 200,
            jsonBody := some (.user u.id u.firstName u.lastName u.emailAddress) }
      ∧ getCourses (scrubUsers g db) = getCourses db
      ∧ getCourse (scrubUsers g db) id = getCourse db id := by
  have hview : courseView (scrubUsers g db) = courseView db :=
    funext (courseView_scrub g db)
  refine ⟨rfl, rfl, ?_, ?_⟩
  · unfold getCourses
    rw [show (scrubUsers g db).courses = db.courses from rfl, hview]
  · unfold getCourse
    rw [show findCourseByPk (scrubUsers g db) id = findCourseByPk db id from rfl, hview]
